import Mathlib

/-!
Verification of the open-gate MAC policy module
(Sources/tsan_utils/tsan_utils.c).

The C file defines a single MAC hook `policy_should_allow_open`, a policy
operations table `our_ops` with that one slot populated, a policy
configuration record `policy_configuration`, and a module entry point
`demoKextStart` that registers the configuration with the host kernel.

Shallow embedding conventions:
* The host call `vnode_getname(vp)` may return NULL; its result is passed
  in as `vnodeName : Option String` (`none` = NULL).
* The host call `proc_selfname` fills a buffer with the current process
  name; its result is passed in as `procName : String`.
* The opaque `cred` and `label` pointers are `Unit` arguments; the hook
  never inspects them.
* Each call to `vnode_putname` is recorded, with its argument, in an
  output trace (a `List (Option String)`), so release-on-every-path
  properties are statable.
* `mac_policy_register` is host code outside this repository; it is a
  parameter of `demoKextStart`, mapping the configuration it receives to
  the status code it returns and the handle it writes through its out
  parameter.
-/

/-- The macOS value of the errno constant EPERM (operation not permitted). -/
def EPERM : Int := 1

/-- The hard-coded protected file name from the source. -/
def protectedFileName : String := "ourApplicationsFile"

/-- The hard-coded allowed process name from the source. -/
def allowedProcessName : String := "ourApplication"

/-- C strcmp on the embedded strings: 0 iff equal, negative or positive
according to order otherwise.  The hook only ever tests the result
against 0. -/
def strcmp (a b : String) : Int :=
  if a = b then 0 else if a < b then -1 else 1

/-- Embedding of `policy_should_allow_open` from tsan_utils.c.

Control flow of the C body:
* `vnodeName = vnode_getname(vp)`;
* if `vnodeName` is non-NULL and strcmp with the protected name is 0,
  obtain the process name and, if it is not the allowed name, call
  `vnode_putname(vnodeName)` and return EPERM;
* otherwise fall through to the unconditional `vnode_putname(vnodeName)`
  (reached with `vnodeName == NULL` as well) and return 0.

Returns the integer status together with the trace of `vnode_putname`
calls made, in order, with the argument each received. -/
def policy_should_allow_open (cred : Unit) (vnodeName : Option String)
    (label : Unit) (procName : String) (acc_mode : Int) :
    Int × List (Option String) :=
  match vnodeName with
  | some n =>
      if strcmp n protectedFileName = 0 then
        if strcmp procName allowedProcessName ≠ 0 then
          (EPERM, [some n])
        else
          (0, [some n])
      else
        (0, [some n])
  | none => (0, [none])

/-- Type of the embedded open-check hook, as stored in the operations
table. -/
def PolicyHookT : Type :=
  Unit → Option String → Unit → String → Int → Int × List (Option String)

/-- Embedding of `struct mac_policy_ops`.  The real struct has many
callback slots; we model the populated slot and a representative sample
of the remaining slots, all of which C designated initialization leaves
NULL (`none`). -/
structure MacPolicyOps where
  mpo_cred_label_init : Option Unit := none
  mpo_cred_label_destroy : Option Unit := none
  mpo_mount_check_mount : Option Unit := none
  mpo_proc_check_signal : Option Unit := none
  mpo_vnode_check_open : Option PolicyHookT := none
  mpo_vnode_check_read : Option Unit := none
  mpo_vnode_check_write : Option Unit := none
  mpo_vnode_check_exec : Option Unit := none

/-- Embedding of `our_ops`: only `mpo_vnode_check_open` is populated. -/
def our_ops : MacPolicyOps :=
  { mpo_vnode_check_open := some policy_should_allow_open }

/-- The XNU value of MPC_LOADTIME_FLAG_UNLOADOK. -/
def MPC_LOADTIME_FLAG_UNLOADOK : Nat := 1

/-- Embedding of `struct mac_policy_conf`.  Pointer fields that the demo
leaves NULL are `Option` fields holding `none`; `mpc_ops` holds the
operations table it points to. -/
structure MacPolicyConf where
  mpc_name : String
  mpc_fullname : String
  mpc_labelnames : Option Unit
  mpc_labelname_count : Nat
  mpc_ops : MacPolicyOps
  mpc_loadtime_flags : Nat
  mpc_field_off : Option Unit
  mpc_runtime_flags : Nat

/-- Embedding of `policy_configuration` from tsan_utils.c. -/
def policy_configuration : MacPolicyConf :=
  { mpc_name := "com.demo.protectFileDemo"
    mpc_fullname := "Protect File Demo"
    mpc_labelnames := none
    mpc_labelname_count := 0
    mpc_ops := our_ops
    mpc_loadtime_flags := MPC_LOADTIME_FLAG_UNLOADOK
    mpc_field_off := none
    mpc_runtime_flags := 0 }

/-- The module state visible to the entry point: the global
`mac_policy_handle_t handle` variable, initially 0. -/
structure KextState where
  handle : Nat

/-- The initial value of the global handle variable. -/
def initialKextState : KextState := { handle := 0 }

/-- Behaviour of the host call `mac_policy_register(conf, &handle, d)`,
which is outside this repository: from the configuration and the extra
pointer it produces the status code it returns and the handle value it
writes through the out parameter. -/
def RegisterBehaviour : Type :=
  MacPolicyConf → Unit → Int × Nat

/-- Embedding of `demoKextStart` from tsan_utils.c: it calls
`mac_policy_register(&policy_configuration, &handle, d)` and returns that
call status directly; the register call writes the new handle into
the global variable. -/
def demoKextStart (mac_policy_register : RegisterBehaviour)
    (ki : Unit) (d : Unit) (s : KextState) : Int × KextState :=
  let r := mac_policy_register policy_configuration d
  (r.1, { handle := r.2 })

/-- Concrete sample inputs used by closed witness theorems. -/
def sampleOtherProc : String := "otherApp"

/-- Concrete sample non-protected file name used by witness theorems. -/
def sampleOtherFile : String := "someOtherFile"

/-- Concrete case-variant of the allowed process name. -/
def caseVariantProc : String := "OurApplication"

/-- Helper: strcmp is zero exactly on equal strings. -/
theorem strcmp_eq_zero_iff (a b : String) : strcmp a b = 0 ↔ a = b := by
  unfold strcmp
  split
  · simp_all
  · split <;> simp_all

/-- Claim C1: if the vnode name is the protected file name and the current
process name is not the allowed process name, the hook returns EPERM. -/
theorem c1_deny_wrong_process (cred label : Unit) (procName : String)
    (acc_mode : Int) (h : procName ≠ allowedProcessName) :
    (policy_should_allow_open cred (some protectedFileName) label procName
      acc_mode).1 = EPERM := by
  unfold policy_should_allow_open
  dsimp only
  rw [if_pos ((strcmp_eq_zero_iff protectedFileName protectedFileName).mpr rfl)]
  rw [if_pos (fun hz => h ((strcmp_eq_zero_iff procName allowedProcessName).mp hz))]

/-- Witness for C1 at the concrete process name from the spec. -/
theorem c1_deny_wrong_process_witness :
    sampleOtherProc ≠ allowedProcessName ∧
    (policy_should_allow_open () (some protectedFileName) () sampleOtherProc
      0).1 = EPERM :=
  ⟨by decide, c1_deny_wrong_process () () sampleOtherProc 0 (by decide)⟩

/-- Claim C2: any non-null vnode name other than the protected file name
yields return value 0, for every process name and access mode. -/
theorem c2_allow_other_file (cred label : Unit) (n procName : String)
    (acc_mode : Int) (h : n ≠ protectedFileName) :
    (policy_should_allow_open cred (some n) label procName acc_mode).1 = 0 := by
  unfold policy_should_allow_open
  dsimp only
  rw [if_neg (fun hz => h ((strcmp_eq_zero_iff n protectedFileName).mp hz))]

/-- Witness for C2 at a concrete non-protected file name. -/
theorem c2_allow_other_file_witness :
    sampleOtherFile ≠ protectedFileName ∧
    (policy_should_allow_open () (some sampleOtherFile) () sampleOtherProc
      7).1 = 0 :=
  ⟨by decide, c2_allow_other_file () () sampleOtherFile sampleOtherProc 7 (by decide)⟩

/-- Claim C3: the protected file name opened by the allowed process yields
return value 0, for every access mode. -/
theorem c3_allow_matching_process (cred label : Unit) (acc_mode : Int) :
    (policy_should_allow_open cred (some protectedFileName) label
      allowedProcessName acc_mode).1 = 0 := by
  unfold policy_should_allow_open
  dsimp only
  rw [if_pos ((strcmp_eq_zero_iff protectedFileName protectedFileName).mpr rfl)]
  rw [if_neg (fun hne =>
    hne ((strcmp_eq_zero_iff allowedProcessName allowedProcessName).mpr rfl))]

/-- Claim C4: if vnode_getname returned NULL, the hook returns 0 for every
process name and access mode. -/
theorem c4_allow_null_name (cred label : Unit) (procName : String)
    (acc_mode : Int) :
    (policy_should_allow_open cred none label procName acc_mode).1 = 0 := rfl

/-- Claim C5: the process-name comparison is case-sensitive; the
case-variant process name is denied with EPERM on the protected file. -/
theorem c5_case_sensitive :
    (policy_should_allow_open () (some protectedFileName) () caseVariantProc
      0).1 = EPERM := by
  unfold policy_should_allow_open
  dsimp only
  rw [if_pos ((strcmp_eq_zero_iff protectedFileName protectedFileName).mpr rfl)]
  rw [if_pos (fun hz =>
    absurd ((strcmp_eq_zero_iff caseVariantProc allowedProcessName).mp hz)
      (by decide))]

/-- Claim C6: the decision is independent of the access mode — for fixed
vnode name and process name the hook returns the same pair for any two
access modes (the mode argument is never inspected). -/
theorem c6_mode_irrelevant (cred label : Unit) (vnodeName : Option String)
    (procName : String) (m1 m2 : Int) :
    policy_should_allow_open cred vnodeName label procName m1 =
    policy_should_allow_open cred vnodeName label procName m2 := by
  unfold policy_should_allow_open
  rfl

/-- Claim C7: on every execution path the hook calls vnode_putname exactly
once, with exactly the name obtained from vnode_getname. -/
theorem c7_putname_exactly_once (cred label : Unit) (vnodeName : Option String)
    (procName : String) (acc_mode : Int) :
    (policy_should_allow_open cred vnodeName label procName acc_mode).2 =
      [vnodeName] := by
  unfold policy_should_allow_open
  match vnodeName with
  | some n => dsimp only; split <;> [skip; rfl]; split <;> rfl
  | none => rfl

/-- Claim C8: the hook returns either 0 or EPERM on every input; no other
status code is produced. -/
theorem c8_result_zero_or_eperm (cred label : Unit) (vnodeName : Option String)
    (procName : String) (acc_mode : Int) :
    (policy_should_allow_open cred vnodeName label procName acc_mode).1 = 0 ∨
    (policy_should_allow_open cred vnodeName label procName acc_mode).1 =
      EPERM := by
  unfold policy_should_allow_open
  match vnodeName with
  | some n =>
      dsimp only
      split
      · split
        · exact Or.inr rfl
        · exact Or.inl rfl
      · exact Or.inl rfl
  | none => exact Or.inl rfl

/-- Claim C9: the entry point passes the policy configuration — whose
operations table has mpo_vnode_check_open populated with the hook and
every other modelled slot NULL — to the register call, stores the handle
the register call produces into the global handle variable, and returns
exactly the register call status. -/
theorem c9_start_registers (mac_policy_register : RegisterBehaviour)
    (ki d : Unit) (s : KextState) :
    (demoKextStart mac_policy_register ki d s).1 =
        (mac_policy_register policy_configuration d).1 ∧
    (demoKextStart mac_policy_register ki d s).2.handle =
        (mac_policy_register policy_configuration d).2 ∧
    policy_configuration.mpc_ops = our_ops ∧
    our_ops.mpo_vnode_check_open = some policy_should_allow_open ∧
    our_ops.mpo_cred_label_init = none ∧
    our_ops.mpo_cred_label_destroy = none ∧
    our_ops.mpo_mount_check_mount = none ∧
    our_ops.mpo_proc_check_signal = none ∧
    our_ops.mpo_vnode_check_read = none ∧
    our_ops.mpo_vnode_check_write = none ∧
    our_ops.mpo_vnode_check_exec = none := by
  refine ⟨rfl, rfl, rfl, rfl, rfl, rfl, rfl, rfl, rfl, rfl, rfl⟩

/-- Claim C10: when vnode_getname returns NULL, the hook still calls
vnode_putname, with that NULL pointer, exactly once, and returns 0: the
final release call is unconditional. -/
theorem c10_putname_on_null (cred label : Unit) (procName : String)
    (acc_mode : Int) :
    policy_should_allow_open cred none label procName acc_mode = (0, [none]) :=
  rfl
